import Mathlib

/-!
Verification development for the whogate-unla MCP gateway.

The Go sources embedded here:
* `internal/mcp/session/redis.go` — the shared (Redis-backed) session store:
  `RedisStore.Register`, `RedisStore.Get`, `RedisStore.Unregister` and the
  `action = "event"` branch of the pub/sub subscriber `RedisStore.handleUpdates`.
* `internal/core/streamable.go` — the streaming plane: `Server.handleMCP`
  (POST branch), `Server.handleGet` (SSE) and `Server.handleMCPRequest`.
* `cmd/mcp-gateway/main.go` — the reload controller `handleReload`.

Modelling conventions:
* Redis state (key/value entries, the `session:ids` set) and the replica-local
  `connections` map are carried explicitly in a `StoreState` record.
* Go channels of capacity 100 are modelled as lists bounded by `queueCapacity`;
  a non-blocking `select`/`default` push succeeds iff the length is below the
  capacity, matching a buffered channel with no concurrent reader.
* Connection objects are identified by allocation order (`nextConn`); a fresh
  `&RedisConnection{...}` literal takes the next handle.  `closedQ` records the
  handles whose queue channel has been `close`d (no path in redis.go does so).
* Fallible Redis commands are driven by a `RedisFx` record of outcome flags so
  that partial-failure interleavings of `Register` can be examined; Redis reads
  are taken to succeed at the transport level (`redis.Nil` is still modelled).
-/

namespace WhoGate

/-! ## Association-list helpers (Go map / Redis keyspace semantics) -/

/-- Lookup in an association list, first match wins. -/
def aget {κ α : Type} [DecidableEq κ] : List (κ × α) → κ → Option α
  | [], _ => none
  | (k', v) :: t, k => if k' = k then some v else aget t k

/-- Remove every binding of a key. -/
def aremove {κ α : Type} [DecidableEq κ] (k : κ) : List (κ × α) → List (κ × α)
  | [] => []
  | hd :: t => if hd.1 = k then aremove k t else hd :: aremove k t

/-- Insert or overwrite a key (Go `m[k] = v`). -/
def aset {κ α : Type} [DecidableEq κ] (m : List (κ × α)) (k : κ) (v : α) : List (κ × α) :=
  (k, v) :: aremove k m

/-- Delete a key (Go `delete(m, k)`). -/
def adel {κ α : Type} [DecidableEq κ] (m : List (κ × α)) (k : κ) : List (κ × α) :=
  aremove k m

/-- Redis `SADD` on a set modelled as a duplicate-free list. -/
def sadd (s : List String) (x : String) : List String :=
  if x ∈ s then s else x :: s

/-- Redis `SREM`: removes the member from the set. -/
def srem (s : List String) (x : String) : List String :=
  match s with
  | [] => []
  | y :: t => if y = x then srem t x else y :: srem t x

/-! ## Session-store data model (`internal/mcp/session`) -/

/-- `session.Meta` — session metadata.  The Go fields are `ID`, `CreatedAt`,
`Prefix`, `Type`; `Prefix`/`Type` are Lean keywords so the fields are named
`pfx` and `typ`. -/
structure Meta where
  id : String
  createdAt : Nat
  pfx : String
  typ : String
deriving DecidableEq, Repr

/-- `session.Message` — an event destined for a session's SSE stream. -/
structure Message where
  event : String
  data : String
deriving DecidableEq, Repr

/-- An update published on the pub/sub topic by `publishUpdate`. -/
structure PubUpdate where
  action : String
  meta : Meta
  message : Option Message
deriving DecidableEq, Repr

/-- Errors surfaced by the store (the distinguished `ErrSessionNotFound`
versus wrapped Redis command failures). -/
inductive StoreErr where
  | sessionNotFound
  | redisErr (msg : String)
deriving DecidableEq, Repr

/-- Combined state of the Redis keyspace and one replica's `RedisStore`.
`kv` maps Redis keys to (unmarshalled) metadata — JSON marshalling is
injective so the value is kept structured.  `ids` is the `session:ids` set.
`connections` is the replica-local `map[string]*RedisConnection`; connection
objects are identified by their allocation handle, with `queues` holding each
handle's buffered-channel contents and `closedQ` the handles whose channel has
been closed. `published` records the updates published to the topic. -/
structure StoreState where
  kv : List (String × Meta)
  ids : List String
  connections : List (String × Nat)
  queues : List (Nat × List Message)
  closedQ : List Nat
  nextConn : Nat
  published : List PubUpdate
deriving DecidableEq, Repr

/-- The empty store (fresh `NewRedisStore` against an empty Redis). -/
def StoreState.empty : StoreState :=
  { kv := [], ids := [], connections := [], queues := [], closedQ := [],
    nextConn := 0, published := [] }

/-- Key namespace: the store is created with `prefix: "session:"`. -/
def sessKeyPref : String := "session:"

/-- Queue capacity: every connection is built with `make(chan *Message, 100)`. -/
def queueCapacity : Nat := 100

/-- Outcome flags for the fallible Redis commands issued by `Register`
(`SET`, `SADD`, `PUBLISH`), used to inject command failures. -/
structure RedisFx where
  setOk : Bool
  saddOk : Bool
  publishOk : Bool
deriving DecidableEq, Repr

/-- All Redis commands succeed. -/
def fxOk : RedisFx := { setOk := true, saddOk := true, publishOk := true }

/-- `SET` and `SADD` succeed but the `PUBLISH` of the "create" update fails. -/
def fxPublishFail : RedisFx := { setOk := true, saddOk := true, publishOk := false }

/-- `RedisStore.Register` (redis.go:130-165).  Marshals and `SET`s the
metadata under `session:<id>`, `SADD`s the id into `session:ids`, builds a
fresh `RedisConnection` with a new capacity-100 queue, stores it in the local
`connections` map, then publishes a `"create"` update.  Each failing step
returns an error immediately, with no rollback of the steps already done.
On success it returns the fresh connection handle together with its meta. -/
def RedisStore.Register (fx : RedisFx) (st : StoreState) (meta : Meta) :
    Except StoreErr (Nat × Meta) × StoreState :=
  if fx.setOk = false then
    (Except.error (StoreErr.redisErr "failed to store session metadata in Redis"), st)
  else
    let st1 := { st with kv := aset st.kv (sessKeyPref ++ meta.id) meta }
    if fx.saddOk = false then
      (Except.error (StoreErr.redisErr "failed to add session ID to list"), st1)
    else
      let st2 := { st1 with ids := sadd st1.ids meta.id }
      let cid := st2.nextConn
      let st3 := { st2 with nextConn := cid + 1,
                            queues := aset st2.queues cid [],
                            connections := aset st2.connections meta.id cid }
      if fx.publishOk = false then
        (Except.error (StoreErr.redisErr "failed to publish session creation"), st3)
      else
        (Except.ok (cid, meta),
         { st3 with published := st3.published ++ [⟨"create", meta, none⟩] })

/-- `RedisStore.Get` (redis.go:168-197).  Checks `SISMEMBER session:ids id`,
fetches and unmarshals `session:<id>`, and returns a **freshly allocated**
`&RedisConnection{...}` with a brand-new empty queue; the local `connections`
map is not consulted and not updated. -/
def RedisStore.Get (st : StoreState) (id : String) :
    Except StoreErr (Nat × Meta) × StoreState :=
  if id ∈ st.ids then
    match aget st.kv (sessKeyPref ++ id) with
    | none => (Except.error StoreErr.sessionNotFound, st)
    | some meta =>
        (Except.ok (st.nextConn, meta),
         { st with nextConn := st.nextConn + 1,
                   queues := aset st.queues st.nextConn [] })
  else (Except.error StoreErr.sessionNotFound, st)

/-- `RedisStore.Unregister` (redis.go:200-228).  Deletes the local
`connections` entry unconditionally, then checks `SISMEMBER`: an id that is
not live yields `ErrSessionNotFound`.  Otherwise it `DEL`s the metadata key,
`SREM`s the id and publishes a `"delete"` update built from `&Meta{ID: id}`.
No statement closes the connection's queue channel. -/
def RedisStore.Unregister (st : StoreState) (id : String) :
    Except StoreErr Unit × StoreState :=
  let st1 := { st with connections := adel st.connections id }
  if id ∈ st1.ids then
    let st2 := { st1 with kv := adel st1.kv (sessKeyPref ++ id) }
    let st3 := { st2 with ids := srem st2.ids id }
    (Except.ok (),
     { st3 with published := st3.published ++ [⟨"delete", ⟨id, 0, "", ""⟩, none⟩] })
  else (Except.error StoreErr.sessionNotFound, st1)

/-- A log line emitted by the subscriber, carrying the structured fields
(`zap.String("id", ...)`, `zap.String("event", ...)`). -/
structure LogEntry where
  level : String
  msg : String
  sid : String
  event : String
deriving DecidableEq, Repr

/-- The `action = "event"` branch of `RedisStore.handleUpdates`
(redis.go:83-105).  Looks up the replica-local connection for the session id;
if present, a non-blocking `select` pushes the message onto the capacity-100
queue, with the `default` arm dropping it and logging a warning naming the
session id and event; if absent, the event is discarded with a warning.
Returns the new state together with the log lines emitted. -/
def RedisStore.handleUpdatesEvent (st : StoreState) (id : String) (msg : Message) :
    StoreState × List LogEntry :=
  match aget st.connections id with
  | some cid =>
    match aget st.queues cid with
    | some q =>
      if q.length < queueCapacity then
        ({ st with queues := aset st.queues cid (q ++ [msg]) },
         [⟨"info", "sent message to connection queue", id, msg.event⟩])
      else
        (st, [⟨"warn", "connection queue is full, dropping message", id, msg.event⟩])
    | none => (st, [])
  | none => (st, [⟨"warn", "received event for non-existent connection", id, msg.event⟩])

/-! ## Streaming plane (`internal/core/streamable.go`) -/

/-- JSON-RPC error codes.  The standard five are fixed by spec §6
("used verbatim"); `ConnectionClosed` and `RequestTimeout` are the MCP SDK
domain codes (their constants live in `pkg/mcp`, outside src/; no claim
depends on their numeric values, only on their distinctness). -/
def errorCodeParseError : Int := -32700

/-- JSON-RPC `InvalidRequest`. -/
def errorCodeInvalidRequest : Int := -32600

/-- JSON-RPC `MethodNotFound`. -/
def errorCodeMethodNotFound : Int := -32601

/-- JSON-RPC `InvalidParams`. -/
def errorCodeInvalidParams : Int := -32602

/-- JSON-RPC `InternalError`. -/
def errorCodeInternalError : Int := -32603

/-- MCP domain code `ConnectionClosed`. -/
def errorCodeConnectionClosed : Int := -32000

/-- MCP domain code `RequestTimeout`. -/
def errorCodeRequestTimeout : Int := -32001

/-- `mcp.LatestProtocolVersion` — a constant of `pkg/mcp` (outside src/),
kept abstract as an uninterpreted version string. -/
def latestProtocolVersion : String := "LATEST"

/-- A result payload framed into a JSON-RPC success response. -/
inductive RPCResult where
  | initializeResult (protocolVersion : String) (serverName : String)
      (serverVersion : String) (toolsListChanged : Bool)
  | listToolsResult (tools : List String)
  | callToolResult (text : String) (isErr : Bool)
deriving DecidableEq, Repr

/-- An observable effect of a handler on the HTTP response / SSE stream. -/
inductive Action where
  | protocolError (code : Int) (status : Nat) (msg : String)
  | respondJSON (status : Nat) (r : RPCResult)
  | pushQueue (r : RPCResult)
  | respondAccepted
  | setHeader (k v : String)
  | write (s : String)
  | writeRaw (m : Message)
  | flush
deriving DecidableEq, Repr

/-- Whether a character list occurs as a contiguous sublist of another
(`strings.Contains`). -/
def hasSub (needle : List Char) : List Char → Bool
  | [] => needle.isEmpty
  | c :: t => needle.isPrefixOf (c :: t) || hasSub needle t

/-- Go `strings.Contains hay needle`. -/
def strContains (hay needle : String) : Bool :=
  hasSub needle.data hay.data

/-- One iteration of the SSE drain loop body on a received message
(streamable.go:127-133): the `switch` writes the formatted
`event: message\ndata: <data>\n\n` frame only for event `"message"`, then —
unconditionally — `fmt.Fprint(c.Writer, event)` writes the raw event value,
and the writer is flushed. -/
def drainMessage (event : Message) : List Action :=
  (if event.event = "message"
   then [Action.write ("event: message\ndata: " ++ event.data ++ "\n\n")]
   else [])
  ++ [Action.writeRaw event, Action.flush]

/-- `Server.handleGet` (streamable.go:97-140).  Requires
`Accept: text/event-stream` (406 otherwise).  A missing `Mcp-Session-Id`
header sends a 400 protocol error but — with no `return` statement — the
handler keeps going: it looks the (empty) id up in the store and, on failure,
sends a second protocol error with HTTP 404.  On a successful lookup it sets
the SSE headers, flushes, and runs the drain loop over the messages received
on the connection's queue channel (`incoming` lists them in arrival order;
the loop also exits on request-context or shutdown, which ends the list). -/
def handleGet (st : StoreState) (acceptHeader sessionID : String)
    (incoming : List Message) : List Action :=
  if strContains acceptHeader "text/event-stream" = false then
    [Action.protocolError errorCodeInvalidRequest 406
      "Not Acceptable: Client must accept text/event-stream"]
  else
    let pre := if sessionID = "" then
      [Action.protocolError errorCodeConnectionClosed 400
        "Bad Request: Mcp-Session-Id header is required"]
      else []
    match (RedisStore.Get st sessionID).1 with
    | Except.error _ =>
        pre ++ [Action.protocolError errorCodeRequestTimeout 404 "Session not found"]
    | Except.ok _ =>
        pre ++
        [Action.setHeader "Content-Type" "text/event-stream",
         Action.setHeader "Cache-Control" "no-cache, no-transform",
         Action.setHeader "Connection" "keep-alive",
         Action.setHeader "Mcp-Session-Id" sessionID,
         Action.flush]
        ++ (incoming.map drainMessage).flatten

/-- Canonical MCP method strings (`mcp.Initialize` etc., `pkg/mcp`). -/
def methodInitialize : String := "initialize"

/-- `mcp.NotificationInitialized`. -/
def methodNotifInitialized : String := "notifications/initialized"

/-- `mcp.ToolsList`. -/
def methodToolsList : String := "tools/list"

/-- `mcp.ToolsCall`. -/
def methodToolsCall : String := "tools/call"

/-- `config.ServerConfig` (spec §3): the per-server entry carrying the
allowed-tool set and the free-form config map used by templates. -/
structure ServerConfig where
  allowedTools : List String
  cfg : List (String × String)
deriving DecidableEq, Repr

/-- The dispatch tables of `core.Server`: the global tool index `toolMap`
(tool names), the per-prefix allowed-tool projection `prefixToTools`
(`ToolSchema` names) and `prefixToServerConfig`. -/
structure ServerState where
  toolMap : List String
  prefixToTools : List (String × List String)
  prefixToServerConfig : List (String × ServerConfig)
deriving DecidableEq, Repr

/-- `mcp.JSONRPCRequest` after `ShouldBindJSON`, with the outcomes of the two
inner `json.Unmarshal` calls (of `params`, and of `params.arguments`) carried
as flags; `toolName` is `params.name` for `tools/call`. -/
structure JSONRPCRequest where
  hasId : Bool
  id : Int
  method : String
  paramsOk : Bool
  toolName : String
  argsOk : Bool
deriving DecidableEq, Repr

/-- Modelled from the spec: `Server.sendProtocolError` is defined in
`internal/core` outside src/; per spec §7 a protocol error is reported as a
JSON-RPC `error` object with the given code and HTTP status. -/
def sendProtocolError (code : Int) (status : Nat) (msg : String) : List Action :=
  [Action.protocolError code status msg]

/-- Modelled from the spec: `Server.sendSuccessResponse` is defined in
`internal/core` outside src/; per spec §4.5 step 5 the result is pushed
through the session queue when an SSE stream is attached, and otherwise
returned synchronously in the POST body as JSON.  Nothing in the spec has it
touch response headers. -/
def sendSuccessResponse (sseAttached : Bool) (r : RPCResult) : List Action :=
  if sseAttached then [Action.pushQueue r] else [Action.respondJSON 200 r]

/-- Modelled from the spec: `Server.sendToolExecutionError` is defined
outside src/; per spec §4.5/§7 a tool-execution failure is reported as a
successful JSON-RPC result carrying `CallToolResult{isError:true}` with the
error message as text. -/
def sendToolExecutionError (sseAttached : Bool) (errMsg : String) : List Action :=
  sendSuccessResponse sseAttached (RPCResult.callToolResult errMsg true)

/-- `Server.handleMCPRequest` (streamable.go:142-237).  `connMeta` is
`conn.Meta()`; `sseAttached` and `execResult` stand for the environment of
the two calls that live outside src/ (`sendSuccessResponse`'s delivery choice
and `executeTool`'s outcome).  For `tools/call` the tool is looked up in the
global precomputed `s.toolMap` only. -/
def handleMCPRequest (srv : ServerState) (sseAttached : Bool)
    (execResult : Except String String) (req : JSONRPCRequest) (connMeta : Meta) :
    List Action :=
  if req.method = methodInitialize then
    if req.paramsOk = false then
      sendProtocolError errorCodeInvalidParams 400 "invalid initialize parameters"
    else
      sendSuccessResponse sseAttached
        (RPCResult.initializeResult latestProtocolVersion "mcp-gateway" "1.0.0" true)
  else if req.method = methodNotifInitialized then
    [Action.respondAccepted]
  else if req.method = methodToolsList then
    let tools := (aget srv.prefixToTools connMeta.pfx).getD []
    sendSuccessResponse sseAttached (RPCResult.listToolsResult tools)
  else if req.method = methodToolsCall then
    if req.paramsOk = false then
      sendProtocolError errorCodeInvalidParams 400 "invalid tool call parameters"
    else if (req.toolName ∈ srv.toolMap : Bool) = false then
      sendProtocolError errorCodeMethodNotFound 404 "Tool not found"
    else if req.argsOk = false then
      sendProtocolError errorCodeInvalidParams 400 "Invalid tool arguments"
    else
      match aget srv.prefixToServerConfig connMeta.pfx with
      | none => sendProtocolError errorCodeInternalError 500 "Server config not found"
      | some _serverCfg =>
        match execResult with
        | Except.error e => sendToolExecutionError sseAttached e
        | Except.ok text =>
            sendSuccessResponse sseAttached (RPCResult.callToolResult text false)
  else
    sendProtocolError errorCodeMethodNotFound 404 "Method not found"

/-- Go `strings.TrimSuffix`. -/
def trimSuffix (s suff : String) : String :=
  if s.endsWith suff then s.dropRight suff.length else s

/-- The `http.MethodPost` branch of `Server.handleMCP` (streamable.go:28-74).
`bindOk` is the outcome of `ShouldBindJSON`; `headerSessionId` is the
`Mcp-Session-Id` request header ("" when absent); `freshUuid` stands for
`uuid.New().String()`; `now` for `time.Now()`.  The `Mcp-Session-Id`
response header is set only inside the `sessionID == ""` branch.  For
`initialize` the session is registered; otherwise it is fetched; the request
is then dispatched through `handleMCPRequest`. -/
def handleMCPPost (fx : RedisFx) (st : StoreState) (srv : ServerState)
    (bindOk : Bool) (req : JSONRPCRequest) (headerSessionId freshUuid : String)
    (now : Nat) (urlPath : String) (sseAttached : Bool)
    (execResult : Except String String) : List Action × StoreState :=
  if bindOk = false then
    (sendProtocolError errorCodeParseError 400 "Invalid JSON-RPC request", st)
  else
    let sessionID := if headerSessionId = "" then freshUuid else headerSessionId
    let hdr := if headerSessionId = "" then
        [Action.setHeader "Mcp-Session-Id" freshUuid] else []
    if req.method = methodInitialize then
      let p0 := trimSuffix urlPath "/mcp"
      let pfx := if p0 = "" then "/" else p0
      let meta : Meta := ⟨sessionID, now, pfx, "streamable"⟩
      match RedisStore.Register fx st meta with
      | (Except.error _, st') =>
          (hdr ++ sendProtocolError errorCodeInternalError 500 "Failed to create session", st')
      | (Except.ok _, st') =>
          (hdr ++ handleMCPRequest srv sseAttached execResult req meta, st')
    else
      match RedisStore.Get st sessionID with
      | (Except.error _, st') =>
          (hdr ++ sendProtocolError errorCodeInvalidRequest 400 "Invalid or expired session", st')
      | (Except.ok (_, meta), st') =>
          (hdr ++ handleMCPRequest srv sseAttached execResult req meta, st')

/-! ## Reload controller (`cmd/mcp-gateway/main.go`) -/

/-- One configuration document as served by `storage.Store.List`, projected
onto the identifiers whose duplication `MergeConfigs` treats as a conflict. -/
structure ConfigDocument where
  routerPfxs : List String
  serverNames : List String
  toolNames : List String
deriving DecidableEq, Repr

/-- The merged snapshot. -/
structure MergedConfig where
  routerPfxs : List String
  serverNames : List String
  toolNames : List String
deriving DecidableEq, Repr

/-- Whether a list contains a duplicate element. -/
def hasDup {α : Type} [DecidableEq α] : List α → Bool
  | [] => false
  | x :: t => x ∈ t || hasDup t

/-- Modelled from the spec: `helper.MergeConfigs`
(`internal/mcp/storage/helper`, not under src/).  Per spec §4.1 it
concatenates the documents and fails with a conflict error on a duplicate
prefix, duplicate server name or duplicate tool name. -/
def MergeConfigs (docs : List ConfigDocument) : Except String MergedConfig :=
  let pfxs := (docs.map (fun d => d.routerPfxs)).flatten
  let servers := (docs.map (fun d => d.serverNames)).flatten
  let tools := (docs.map (fun d => d.toolNames)).flatten
  if hasDup pfxs then Except.error "duplicate prefix"
  else if hasDup servers then Except.error "duplicate server name"
  else if hasDup tools then Except.error "duplicate tool name"
  else Except.ok ⟨pfxs, servers, tools⟩

/-- Outcome of one run of `handleReload`.  `fatalExit` is `logger.Fatal`,
which (per zap's documented semantics) logs the message and then calls
`os.Exit(1)`, terminating the process.  `keepOld` is `logger.Error` followed
by `return`: the current snapshot, router and HTTP server stay in place.
`swapped` means the new server was installed. -/
inductive ReloadOutcome where
  | fatalExit (msg : String)
  | keepOld (msg : String)
  | swapped (cfg : MergedConfig)
deriving DecidableEq, Repr

/-- Whether an outcome terminates the process. -/
def ReloadOutcome.terminatesProcess : ReloadOutcome → Bool
  | ReloadOutcome.fatalExit _ => true
  | _ => false

/-- `handleReload` (main.go:93-144), triggered by a notifier tick or the
internal `POST /_reload` endpoint.  `listResult` is `store.List`'s outcome;
the three flags are the outcomes of `RegisterRoutes`, `UpdateConfig` and the
old server's `Shutdown`.  A failure of `store.List` or of `MergeConfigs` is
handled with `logger.Fatal`; the later failures with `logger.Error` and
`return`. -/
def handleReload (listResult : Except String (List ConfigDocument))
    (registerRoutesOk updateConfigOk shutdownOk : Bool) : ReloadOutcome :=
  match listResult with
  | Except.error _ => ReloadOutcome.fatalExit "Failed to load MCP configurations"
  | Except.ok docs =>
    match MergeConfigs docs with
    | Except.error _ => ReloadOutcome.fatalExit "failed to merge MCP configurations"
    | Except.ok newCfg =>
      if registerRoutesOk = false then ReloadOutcome.keepOld "failed to register new routes"
      else if updateConfigOk = false then
        ReloadOutcome.keepOld "failed to update server configuration"
      else if shutdownOk = false then ReloadOutcome.keepOld "failed to shutdown old server"
      else ReloadOutcome.swapped newCfg

/-! ## Store operation traces (for fan-out isolation) -/

/-- A store-level operation observable by one replica: a local `Register`,
`Get` or `Unregister` call, or the subscriber handling an `"event"` update
from the topic. -/
inductive StoreOp where
  | register (meta : Meta)
  | get (id : String)
  | unregister (id : String)
  | event (id : String) (msg : Message)
deriving DecidableEq, Repr

/-- State effect of one operation (Redis commands succeeding). -/
def applyOp (st : StoreState) : StoreOp → StoreState
  | StoreOp.register meta => (RedisStore.Register fxOk st meta).2
  | StoreOp.get id => (RedisStore.Get st id).2
  | StoreOp.unregister id => (RedisStore.Unregister st id).2
  | StoreOp.event id msg => (RedisStore.handleUpdatesEvent st id msg).1

/-- State after a sequence of operations. -/
def applyOps (st : StoreState) (ops : List StoreOp) : StoreState :=
  ops.foldl applyOp st

/-! ## Properties and fixtures used by the claim statements -/

/-- Every connection queue holds at most `queueCapacity` messages. -/
def queuesBounded (st : StoreState) : Prop :=
  ∀ p ∈ st.queues, p.2.length ≤ queueCapacity

instance (st : StoreState) : Decidable (queuesBounded st) := by
  unfold queuesBounded; infer_instance

/-- A connection handle that is live as a queue, absent from the
`connections` map, and below the allocation counter. -/
def freshConn (c : Nat) (st : StoreState) : Prop :=
  aget st.queues c = some [] ∧ (∀ p ∈ st.connections, p.2 ≠ c) ∧ c < st.nextConn

/-- Recogniser for `Mcp-Session-Id`-setting response actions. -/
def isSetHeader : Action → Bool
  | Action.setHeader _ _ => true
  | _ => false

/-- Fixture: a session meta as built by the initialize path. -/
def c2meta : Meta := ⟨"s1", 0, "/p", "streamable"⟩

/-- Fixture: an inbound event. -/
def c2msg : Message := ⟨"message", "d1"⟩

/-- Fixture: store after registering `c2meta` on an empty store. -/
def c2st1 : StoreState := (RedisStore.Register fxOk StoreState.empty c2meta).2

/-- Fixture: after one event has been fanned out to the live connection. -/
def c2st2 : StoreState := (RedisStore.handleUpdatesEvent c2st1 "s1" c2msg).1

/-- Fixture: a snapshot whose global tool index knows tools `x` and `y`,
while prefix `/p`'s server only allows `x`. -/
def c3srv : ServerState :=
  { toolMap := ["x", "y"],
    prefixToTools := [("/p", ["x"])],
    prefixToServerConfig := [("/p", { allowedTools := ["x"], cfg := [] })] }

/-- Fixture: the session meta of a session registered under prefix `/p`. -/
def c3meta : Meta := ⟨"s1", 0, "/p", "streamable"⟩

/-- Fixture: a `tools/call` request naming tool `y`. -/
def c3req : JSONRPCRequest := ⟨true, 3, "tools/call", true, "y", true⟩

/-- Fixture: a registered session for the Unregister claims. -/
def c5meta : Meta := ⟨"s1", 0, "/p", "streamable"⟩

/-- Fixture: store holding session `s1`. -/
def c5st : StoreState := (RedisStore.Register fxOk StoreState.empty c5meta).2

/-- Fixture: a snapshot with no tools (irrelevant to initialize). -/
def c6srv : ServerState := { toolMap := [], prefixToTools := [], prefixToServerConfig := [] }

/-- Fixture: an `initialize` request whose params unmarshal. -/
def c6req : JSONRPCRequest := ⟨true, 1, "initialize", true, "", true⟩

/-- Fixture: an inbound event for the overflow claims. -/
def c7msg : Message := ⟨"message", "d"⟩

/-- Fixture: a store whose single connection queue is exactly full. -/
def c7st : StoreState :=
  { kv := [(sessKeyPref ++ "s1", ⟨"s1", 0, "/p", "streamable"⟩)],
    ids := ["s1"],
    connections := [("s1", 0)],
    queues := [(0, List.replicate queueCapacity c7msg)],
    closedQ := [], nextConn := 1, published := [] }

/-- Fixture: the registered session for the Get-isolation claims. -/
def c8meta : Meta := ⟨"s1", 0, "/p", "streamable"⟩

/-- Fixture: store holding session `s1` with its live connection 0. -/
def c8st : StoreState := (RedisStore.Register fxOk StoreState.empty c8meta).2

end WhoGate

namespace WhoGate

/-! ## Helper lemmas on the association-list operations -/

theorem aget_aset_self {κ α : Type} [DecidableEq κ] (m : List (κ × α)) (k : κ) (v : α) :
    aget (aset m k v) k = some v := by
  simp [aget, aset]

theorem aget_aremove_ne {κ α : Type} [DecidableEq κ] (m : List (κ × α)) (k k' : κ)
    (h : k' ≠ k) : aget (aremove k m) k' = aget m k' := by
  induction m with
  | nil => rfl
  | cons hd t ih =>
    have hks : ¬ k = k' := fun hc => h hc.symm
    by_cases hk : hd.1 = k
    · have hne : ¬ hd.1 = k' := fun hc => h (by rw [← hc]; exact hk)
      simp [aremove, hk, aget, hne, hks, ih]
    · by_cases hk' : hd.1 = k'
      · simp [aremove, hk, aget, hk', h]
      · simp [aremove, hk, aget, hk', ih]

theorem aget_aset_ne {κ α : Type} [DecidableEq κ] (m : List (κ × α)) (k k' : κ) (v : α)
    (h : k' ≠ k) : aget (aset m k v) k' = aget m k' := by
  have hne : ¬ k = k' := fun hc => h hc.symm
  simp [aset, aget, hne, aget_aremove_ne m k k' h]

theorem aget_aremove_self {κ α : Type} [DecidableEq κ] (m : List (κ × α)) (k : κ) :
    aget (aremove k m) k = none := by
  induction m with
  | nil => rfl
  | cons hd t ih =>
    by_cases hk : hd.1 = k
    · simp [aremove, hk, ih]
    · simp [aremove, hk, aget, ih]

theorem aget_adel_self {κ α : Type} [DecidableEq κ] (m : List (κ × α)) (k : κ) :
    aget (adel m k) k = none := by
  simp [adel, aget_aremove_self]

theorem aget_mem {κ α : Type} [DecidableEq κ] (m : List (κ × α)) (k : κ) (v : α)
    (h : aget m k = some v) : (k, v) ∈ m := by
  induction m with
  | nil => simp [aget] at h
  | cons hd t ih =>
    rcases hd with ⟨k1, v1⟩
    by_cases hk : k1 = k
    · subst hk
      have hv : v1 = v := by simpa [aget] using h
      subst hv
      exact List.mem_cons_self _ _
    · have h' : aget t k = some v := by simpa [aget, hk] using h
      exact List.mem_cons_of_mem _ (ih h')

theorem mem_aremove {κ α : Type} [DecidableEq κ] (k : κ) (m : List (κ × α))
    (p : κ × α) (h : p ∈ aremove k m) : p ∈ m := by
  induction m with
  | nil => simp [aremove] at h
  | cons hd t ih =>
    by_cases hk : hd.1 = k
    · simp [aremove, hk] at h
      exact List.mem_cons_of_mem _ (ih h)
    · simp [aremove, hk] at h
      cases h with
      | inl h => simp [h]
      | inr h => exact List.mem_cons_of_mem _ (ih h)

theorem mem_of_mem_aset {κ α : Type} [DecidableEq κ] (m : List (κ × α)) (k : κ) (v : α)
    (p : κ × α) (h : p ∈ aset m k v) : p = (k, v) ∨ p ∈ m := by
  simp [aset] at h
  cases h with
  | inl h => exact Or.inl (by simp [h])
  | inr h => exact Or.inr (mem_aremove k m p h)

theorem mem_sadd (s : List String) (x : String) : x ∈ sadd s x := by
  by_cases h : x ∈ s
  · simp [sadd, h]
  · simp [sadd, h]

theorem not_mem_srem (s : List String) (x : String) : x ∉ srem s x := by
  induction s with
  | nil => simp [srem]
  | cons y t ih =>
    by_cases hy : y = x
    · simpa [srem, hy] using ih
    · simp [srem, hy, List.mem_cons, ih]
      exact fun hc => hy hc.symm

/-! ## Claim theorems -/

/-- C1: the claim says a `MergeConfigs` failure during a reload is logged and
the old snapshot and HTTP server stay active, never terminating the process.
The code instead reaches `logger.Fatal`, which terminates the process: on a
reload whose pulled documents conflict (duplicate prefix `/a`), `handleReload`
produces `fatalExit`, not `keepOld`. -/
theorem handleReload_merge_failure_exits_process :
    MergeConfigs [⟨["/a"], ["s1"], ["t1"]⟩, ⟨["/a"], ["s2"], ["t2"]⟩]
        = Except.error "duplicate prefix"
    ∧ handleReload
        (Except.ok [⟨["/a"], ["s1"], ["t1"]⟩, ⟨["/a"], ["s2"], ["t2"]⟩]) true true true
        = ReloadOutcome.fatalExit "failed to merge MCP configurations"
    ∧ (handleReload
        (Except.ok [⟨["/a"], ["s1"], ["t1"]⟩, ⟨["/a"], ["s2"], ["t2"]⟩])
        true true true).terminatesProcess = true :=
  ⟨rfl, rfl, rfl⟩

/-- C2 counterexample: `Register` is not idempotent on `meta.id`.  On a store
whose live session `s1` owns connection 0 with one queued message,
re-registering the same meta returns a *different* connection (handle 1) whose
queue is a fresh empty one, and overwrites the map entry — the claim that the
existing connection is returned with its queue intact is false. -/
theorem Register_reregister_counterexample :
    (RedisStore.Register fxOk StoreState.empty c2meta).1 = Except.ok (0, c2meta)
    ∧ aget c2st2.queues 0 = some [c2msg]
    ∧ (RedisStore.Register fxOk c2st2 c2meta).1 = Except.ok (1, c2meta)
    ∧ aget (RedisStore.Register fxOk c2st2 c2meta).2.queues 1 = some []
    ∧ aget (RedisStore.Register fxOk c2st2 c2meta).2.connections "s1" = some 1 :=
  ⟨rfl, rfl, rfl, rfl, rfl⟩

/-- C2 amended: `Register` always allocates a fresh connection with a new
empty queue and overwrites the local `connections`-map entry for `meta.id`;
re-registering a live id returns a new connection rather than the existing
one, resetting the delivery queue the store will fan events into. -/
theorem Register_always_allocates_fresh_connection (st : StoreState) (meta : Meta) :
    (RedisStore.Register fxOk st meta).1 = Except.ok (st.nextConn, meta)
    ∧ (RedisStore.Register fxOk st meta).2.nextConn = st.nextConn + 1
    ∧ aget (RedisStore.Register fxOk st meta).2.queues st.nextConn = some []
    ∧ aget (RedisStore.Register fxOk st meta).2.connections meta.id = some st.nextConn := by
  refine ⟨?_, ?_, ?_, ?_⟩ <;> simp [RedisStore.Register, fxOk, aget_aset_self]

/-- C10: when `SET session:<id>` and `SADD session:ids` succeed but the
`PUBLISH` of the `"create"` update fails, `Register` returns an error while
the metadata entry, the id-set member and the local `connections`-map entry
all remain in place, and a subsequent `Get` with the same id succeeds. -/
theorem Register_publish_failure_leaves_partial_state (st : StoreState) (meta : Meta) :
    (RedisStore.Register fxPublishFail st meta).1
        = Except.error (StoreErr.redisErr "failed to publish session creation")
    ∧ aget (RedisStore.Register fxPublishFail st meta).2.kv (sessKeyPref ++ meta.id)
        = some meta
    ∧ meta.id ∈ (RedisStore.Register fxPublishFail st meta).2.ids
    ∧ aget (RedisStore.Register fxPublishFail st meta).2.connections meta.id
        = some st.nextConn
    ∧ (RedisStore.Get (RedisStore.Register fxPublishFail st meta).2 meta.id).1
        = Except.ok (st.nextConn + 1, meta) := by
  refine ⟨?_, ?_, ?_, ?_, ?_⟩
  · simp [RedisStore.Register, fxPublishFail]
  · simp [RedisStore.Register, fxPublishFail, aget_aset_self]
  · simp only [RedisStore.Register, fxPublishFail]
    simp
    exact mem_sadd _ _
  · simp [RedisStore.Register, fxPublishFail, aget_aset_self]
  · simp [RedisStore.Register, RedisStore.Get, fxPublishFail, aget_aset_self,
      mem_sadd st.ids meta.id]

/-- C3 counterexample: `tools/call` resolution is not scoped by the session
prefix's allowed set.  Under prefix `/p` only tool `x` is allowed, yet calling
tool `y` — present in the global `toolMap` — is dispatched and answered with a
success result instead of the `MethodNotFound` (-32601, HTTP 404) the claim
requires. -/
theorem toolsCall_ignores_allowed_set_counterexample :
    ("y" ∉ (aget c3srv.prefixToTools c3meta.pfx).getD [])
    ∧ ("y" ∉ ((aget c3srv.prefixToServerConfig c3meta.pfx).getD ⟨[], []⟩).allowedTools)
    ∧ handleMCPRequest c3srv false (Except.ok "out") c3req c3meta
        = [Action.respondJSON 200 (RPCResult.callToolResult "out" false)]
    ∧ handleMCPRequest c3srv false (Except.ok "out") c3req c3meta
        ≠ [Action.protocolError errorCodeMethodNotFound 404 "Tool not found"] :=
  ⟨by decide, by decide, rfl, by decide⟩

/-- C3 amended: for a `tools/call` request whose params unmarshal, the
dispatcher replies `MethodNotFound` (-32601, HTTP 404, "Tool not found")
exactly when `params.name` is absent from the global precomputed `toolMap`;
the allowed set of the session's prefix is never consulted, so a tool known
to the snapshot is dispatched even when the prefix does not allow it. -/
theorem toolsCall_method_not_found_iff_not_in_toolMap
    (srv : ServerState) (sseAttached : Bool) (execResult : Except String String)
    (req : JSONRPCRequest) (meta : Meta)
    (hm : req.method = methodToolsCall) (hp : req.paramsOk = true) :
    (handleMCPRequest srv sseAttached execResult req meta
        = [Action.protocolError errorCodeMethodNotFound 404 "Tool not found"])
      ↔ req.toolName ∉ srv.toolMap := by
  have hni : ¬ (methodToolsCall = methodInitialize) := by decide
  have hnn : ¬ (methodToolsCall = methodNotifInitialized) := by decide
  have hnl : ¬ (methodToolsCall = methodToolsList) := by decide
  by_cases hmem : req.toolName ∈ srv.toolMap
  · simp [handleMCPRequest, hm, hni, hnn, hnl, hp, hmem]
    intro hres
    split at hres
    · simp [sendProtocolError, errorCodeInvalidParams, errorCodeMethodNotFound] at hres
    · split at hres
      · simp [sendProtocolError, errorCodeInternalError, errorCodeMethodNotFound] at hres
      · split at hres
        · simp [sendToolExecutionError, sendSuccessResponse] at hres
          split at hres <;> simp at hres
        · simp [sendSuccessResponse] at hres
          split at hres <;> simp at hres
  · simp [handleMCPRequest, hm, hni, hnn, hnl, hp, hmem, sendProtocolError]

/-- C3 amended witness: on the concrete snapshot `c3srv` and request `c3req`
the hypotheses hold and the equivalence is established. -/
theorem toolsCall_method_not_found_iff_witness :
    (c3req.method = methodToolsCall ∧ c3req.paramsOk = true)
    ∧ ((handleMCPRequest c3srv false (Except.ok "out") c3req c3meta
        = [Action.protocolError errorCodeMethodNotFound 404 "Tool not found"])
      ↔ c3req.toolName ∉ c3srv.toolMap) :=
  ⟨⟨rfl, rfl⟩,
   toolsCall_method_not_found_iff_not_in_toolMap c3srv false (Except.ok "out")
     c3req c3meta rfl rfl⟩

/-- C4: the claim says a `"message"` event produces exactly the formatted
frame followed by a flush and nothing else.  The loop body additionally
executes `fmt.Fprint(c.Writer, event)`, writing the raw event value between
the frame and the flush — evaluated here at the spec's own S4 input
`{event:"message", data:"{\"k\":1}"}`. -/
theorem drain_loop_writes_raw_event_in_addition :
    drainMessage ⟨"message", "\x7b\"k\":1\x7d"⟩
      = [Action.write "event: message\ndata: \x7b\"k\":1\x7d\n\n",
         Action.writeRaw ⟨"message", "\x7b\"k\":1\x7d"⟩, Action.flush] := by
  rfl

/-- C5 counterexample: on a store holding live session `s1` (connection 0),
the first `Unregister` succeeds but closes nothing — `closedQ` stays empty, a
reader of queue 0 would keep blocking rather than observe end-of-stream — and
a second `Unregister` of the same id fails with `ErrSessionNotFound` instead
of succeeding, so the claim is false. -/
theorem Unregister_counterexample :
    (RedisStore.Unregister c5st "s1").1 = Except.ok ()
    ∧ (RedisStore.Unregister c5st "s1").2.closedQ = []
    ∧ aget (RedisStore.Unregister c5st "s1").2.queues 0 = some []
    ∧ (RedisStore.Unregister (RedisStore.Unregister c5st "s1").2 "s1").1
        = Except.error StoreErr.sessionNotFound :=
  ⟨rfl, rfl, rfl, rfl⟩

/-- C5 amended: for a live id, `Unregister` removes the local
`connections`-map entry, deletes the metadata key and the id-set member, but
never closes the session's event queue (queues and the closed set are
untouched), and a second `Unregister` of the same id fails with
`ErrSessionNotFound` — it is not idempotent. -/
theorem Unregister_removes_but_never_closes_queue (st : StoreState) (id : String)
    (hlive : id ∈ st.ids) :
    (RedisStore.Unregister st id).1 = Except.ok ()
    ∧ aget (RedisStore.Unregister st id).2.connections id = none
    ∧ id ∉ (RedisStore.Unregister st id).2.ids
    ∧ aget (RedisStore.Unregister st id).2.kv (sessKeyPref ++ id) = none
    ∧ (RedisStore.Unregister st id).2.closedQ = st.closedQ
    ∧ (RedisStore.Unregister st id).2.queues = st.queues
    ∧ (RedisStore.Unregister (RedisStore.Unregister st id).2 id).1
        = Except.error StoreErr.sessionNotFound := by
  refine ⟨?_, ?_, ?_, ?_, ?_, ?_, ?_⟩ <;>
    simp [RedisStore.Unregister, hlive, adel, aget_aremove_self, not_mem_srem]

/-- C5 amended witness: the hypotheses hold on the concrete store `c5st`. -/
theorem Unregister_removes_witness :
    ("s1" ∈ c5st.ids) ∧ (RedisStore.Unregister c5st "s1").1 = Except.ok () :=
  ⟨by decide, (Unregister_removes_but_never_closes_queue c5st "s1" (by decide)).1⟩

/-- C6 counterexample: when the client supplies its own `Mcp-Session-Id`
(here "abc"), the successful initialize response carries no `Mcp-Session-Id`
header at all — `c.Header` is only called inside the empty-header branch —
contradicting "sets the Mcp-Session-Id header ... in all cases". -/
theorem initialize_no_header_for_client_supplied_id :
    (handleMCPPost fxOk StoreState.empty c6srv true c6req "abc" "u-1" 0 "/p/mcp"
        false (Except.ok "")).1
      = [Action.respondJSON 200
          (RPCResult.initializeResult latestProtocolVersion "mcp-gateway" "1.0.0" true)]
    ∧ (handleMCPPost fxOk StoreState.empty c6srv true c6req "abc" "u-1" 0 "/p/mcp"
        false (Except.ok "")).1.filter isSetHeader = [] :=
  ⟨rfl, rfl⟩

/-- C6 amended: a successful initialize POST registers a session under the
client-supplied id, or a generated uuid when none was supplied, and responds
with the latest protocol version and serverInfo.name "mcp-gateway"; the
`Mcp-Session-Id` response header is set exactly when the client supplied no
id (carrying the generated uuid). -/
theorem initialize_header_only_when_generated
    (st : StoreState) (srv : ServerState) (req : JSONRPCRequest)
    (headerSessionId freshUuid : String) (now : Nat) (urlPath : String)
    (execResult : Except String String)
    (hm : req.method = methodInitialize) (hp : req.paramsOk = true) :
    ((handleMCPPost fxOk st srv true req headerSessionId freshUuid now urlPath
        false execResult).1.filter isSetHeader
      = if headerSessionId = "" then [Action.setHeader "Mcp-Session-Id" freshUuid] else [])
    ∧ (Action.respondJSON 200
        (RPCResult.initializeResult latestProtocolVersion "mcp-gateway" "1.0.0" true)
        ∈ (handleMCPPost fxOk st srv true req headerSessionId freshUuid now urlPath
            false execResult).1)
    ∧ aget (handleMCPPost fxOk st srv true req headerSessionId freshUuid now urlPath
          false execResult).2.connections
        (if headerSessionId = "" then freshUuid else headerSessionId)
      = some st.nextConn := by
  by_cases hh : headerSessionId = "" <;>
    simp [handleMCPPost, handleMCPRequest, RedisStore.Register, fxOk, hm, hp, hh,
      sendSuccessResponse, isSetHeader, aget_aset_self]

/-- C6 amended witness: concrete run with no client-supplied id. -/
theorem initialize_header_only_when_generated_witness :
    (c6req.method = methodInitialize ∧ c6req.paramsOk = true)
    ∧ (handleMCPPost fxOk StoreState.empty c6srv true c6req "" "u-1" 0 "/p/mcp"
        false (Except.ok "")).1.filter isSetHeader
      = if ("" : String) = "" then [Action.setHeader "Mcp-Session-Id" "u-1"] else [] :=
  ⟨⟨rfl, rfl⟩,
   (initialize_header_only_when_generated StoreState.empty c6srv c6req "" "u-1" 0
     "/p/mcp" (Except.ok "") rfl rfl).1⟩

/-- C7: connection queues have capacity exactly 100 and the subscriber's push
never blocks: handling an `"event"` update preserves the length-≤-100 bound,
never closes a queue or removes a connection, and on a full queue drops the
inbound message (state unchanged) with a single warning log naming the
session id and event. -/
theorem queue_overflow_drops_newest (st : StoreState) (id : String) (msg : Message)
    (hb : queuesBounded st) :
    queueCapacity = 100
    ∧ queuesBounded (RedisStore.handleUpdatesEvent st id msg).1
    ∧ (RedisStore.handleUpdatesEvent st id msg).1.closedQ = st.closedQ
    ∧ (RedisStore.handleUpdatesEvent st id msg).1.connections = st.connections
    ∧ (RedisStore.handleUpdatesEvent st id msg).1.ids = st.ids
    ∧ (∀ cid q, aget st.connections id = some cid → aget st.queues cid = some q →
        q.length = queueCapacity →
          (RedisStore.handleUpdatesEvent st id msg).1 = st
          ∧ (RedisStore.handleUpdatesEvent st id msg).2
              = [⟨"warn", "connection queue is full, dropping message", id, msg.event⟩]) := by
  unfold RedisStore.handleUpdatesEvent
  cases hc : aget st.connections id with
  | none =>
      dsimp only
      refine ⟨rfl, hb, rfl, rfl, rfl, ?_⟩
      intro cid q hcg hqg hlen
      simp at hcg
  | some cid =>
      dsimp only
      cases hq : aget st.queues cid with
      | none =>
          refine ⟨rfl, hb, rfl, rfl, rfl, ?_⟩
          intro cid' q hcg hqg hlen
          have hcc : cid' = cid := (Option.some.inj hcg).symm
          subst hcc
          rw [hq] at hqg
          simp at hqg
      | some q =>
          dsimp only
          by_cases hlen : q.length < queueCapacity
          · rw [if_pos hlen]
            refine ⟨rfl, ?_, rfl, rfl, rfl, ?_⟩
            · intro p hp
              rcases mem_of_mem_aset st.queues cid (q ++ [msg]) p hp with hpe | hpm
              · rw [hpe]
                simp only [List.length_append, List.length_cons, List.length_nil]
                simp only [queueCapacity] at hlen ⊢
                omega
              · exact hb p hpm
            · intro cid' q' hcg hqg hlen'
              have hcc : cid' = cid := (Option.some.inj hcg).symm
              subst hcc
              rw [hq] at hqg
              have hqq : q' = q := (Option.some.inj hqg).symm
              subst hqq
              exact absurd hlen (by simp [hlen'])
          · rw [if_neg hlen]
            refine ⟨rfl, hb, rfl, rfl, rfl, ?_⟩
            intro cid' q' hcg hqg hlen'
            exact ⟨rfl, rfl⟩

/-- C7 witness: the bound holds on a store whose only queue is exactly full. -/
theorem queue_overflow_witness :
    queuesBounded c7st ∧ queueCapacity = 100 :=
  ⟨by decide, (queue_overflow_drops_newest c7st "s1" c7msg (by decide)).1⟩

/-- C9: a GET with `Accept: text/event-stream` but no `Mcp-Session-Id`
header writes the 400 protocol error and keeps executing: it looks the empty
id up in the store and, the lookup failing, writes a second protocol error
(HTTP 404) into the same response. -/
theorem handleGet_missing_session_id_double_error (st : StoreState)
    (incoming : List Message) (h : "" ∉ st.ids) :
    handleGet st "text/event-stream" "" incoming
      = [Action.protocolError errorCodeConnectionClosed 400
          "Bad Request: Mcp-Session-Id header is required",
         Action.protocolError errorCodeRequestTimeout 404 "Session not found"] := by
  have ha : strContains "text/event-stream" "text/event-stream" = true := by decide
  simp [handleGet, ha, RedisStore.Get, h]

theorem Register_fxOk_state (st : StoreState) (meta : Meta) :
    (RedisStore.Register fxOk st meta).2
      = { kv := aset st.kv (sessKeyPref ++ meta.id) meta,
          ids := sadd st.ids meta.id,
          connections := aset st.connections meta.id st.nextConn,
          queues := aset st.queues st.nextConn [],
          closedQ := st.closedQ,
          nextConn := st.nextConn + 1,
          published := st.published ++ [⟨"create", meta, none⟩] } := rfl

/-- The fresh-connection invariant is preserved by every store operation:
the handle's queue stays present and empty, no `connections`-map entry ever
points at it, and it stays below the allocation counter. -/
theorem freshConn_applyOp (c : Nat) (st : StoreState) (op : StoreOp)
    (h : freshConn c st) : freshConn c (applyOp st op) := by
  obtain ⟨hq, hmap, hlt⟩ := h
  have hne : c ≠ st.nextConn := Nat.ne_of_lt hlt
  cases op with
  | register meta =>
      show freshConn c (RedisStore.Register fxOk st meta).2
      rw [Register_fxOk_state]
      refine ⟨?_, ?_, ?_⟩
      · show aget (aset st.queues st.nextConn []) c = some []
        rw [aget_aset_ne st.queues st.nextConn c [] hne]
        exact hq
      · intro p hp
        rcases mem_of_mem_aset st.connections meta.id st.nextConn p hp with hpe | hpm
        · rw [hpe]
          exact fun hcc => hne hcc.symm
        · exact hmap p hpm
      · exact Nat.lt_succ_of_lt hlt
  | get id =>
      show freshConn c (RedisStore.Get st id).2
      unfold RedisStore.Get
      by_cases hmem : id ∈ st.ids
      · rw [if_pos hmem]
        cases hkv : aget st.kv (sessKeyPref ++ id) with
        | none => exact ⟨hq, hmap, hlt⟩
        | some m =>
            refine ⟨?_, hmap, Nat.lt_succ_of_lt hlt⟩
            dsimp only
            rw [aget_aset_ne st.queues st.nextConn c [] hne]
            exact hq
      · rw [if_neg hmem]
        exact ⟨hq, hmap, hlt⟩
  | unregister id =>
      show freshConn c (RedisStore.Unregister st id).2
      unfold RedisStore.Unregister
      by_cases hmem : id ∈ st.ids
      · rw [if_pos hmem]
        refine ⟨hq, ?_, hlt⟩
        intro p hp
        exact hmap p (mem_aremove id st.connections p hp)
      · rw [if_neg hmem]
        refine ⟨hq, ?_, hlt⟩
        intro p hp
        exact hmap p (mem_aremove id st.connections p hp)
  | event id msg =>
      show freshConn c (RedisStore.handleUpdatesEvent st id msg).1
      unfold RedisStore.handleUpdatesEvent
      cases hc : aget st.connections id with
      | none => exact ⟨hq, hmap, hlt⟩
      | some cid =>
          dsimp only
          have hcid : cid ≠ c := hmap (id, cid) (aget_mem st.connections id cid hc)
          cases hqv : aget st.queues cid with
          | none => exact ⟨hq, hmap, hlt⟩
          | some q =>
              dsimp only
              by_cases hlen : q.length < queueCapacity
              · rw [if_pos hlen]
                refine ⟨?_, hmap, hlt⟩
                dsimp only
                rw [aget_aset_ne st.queues cid c (q ++ [msg]) (fun hc2 => hcid hc2.symm)]
                exact hq
              · rw [if_neg hlen]
                exact ⟨hq, hmap, hlt⟩

/-- The fresh-connection invariant is preserved by any operation sequence. -/
theorem freshConn_applyOps (c : Nat) (st : StoreState) (ops : List StoreOp)
    (h : freshConn c st) : freshConn c (applyOps st ops) := by
  induction ops generalizing st with
  | nil => exact h
  | cons op t ih => exact ih (applyOp st op) (freshConn_applyOp c st op h)

/-- C8: a connection returned by `Get` is freshly allocated with a new empty
queue and is never inserted into the replica's `connections` map; under any
further operations — registrations, gets, unregistrations and pub/sub event
deliveries (which push only to the map entry created by `Register`) — the
Get-connection's queue stays empty. -/
theorem Get_returns_isolated_fresh_connection (st : StoreState) (id : String)
    (cid : Nat) (meta : Meta)
    (hconn : ∀ p ∈ st.connections, p.2 < st.nextConn)
    (hget : (RedisStore.Get st id).1 = Except.ok (cid, meta)) :
    (RedisStore.Get st id).2.connections = st.connections
    ∧ cid = st.nextConn
    ∧ aget (RedisStore.Get st id).2.queues cid = some []
    ∧ ∀ ops : List StoreOp,
        aget (applyOps (RedisStore.Get st id).2 ops).queues cid = some [] := by
  by_cases hmem : id ∈ st.ids
  · cases hkv : aget st.kv (sessKeyPref ++ id) with
    | none => simp [RedisStore.Get, hmem, hkv] at hget
    | some m =>
        have hres : RedisStore.Get st id
            = (Except.ok (st.nextConn, m),
               { st with nextConn := st.nextConn + 1,
                         queues := aset st.queues st.nextConn [] }) := by
          simp [RedisStore.Get, hmem, hkv]
        rw [hres] at hget ⊢
        have hcid : cid = st.nextConn := by
          simp at hget
          exact hget.1.symm
        subst hcid
        have hfresh : freshConn st.nextConn
            { st with nextConn := st.nextConn + 1,
                      queues := aset st.queues st.nextConn [] } := by
          refine ⟨?_, ?_, ?_⟩
          · exact aget_aset_self st.queues st.nextConn []
          · intro p hp
            exact Nat.ne_of_lt (hconn p hp)
          · exact Nat.lt_succ_self _
        refine ⟨rfl, rfl, hfresh.1, ?_⟩
        intro ops
        exact (freshConn_applyOps st.nextConn _ ops hfresh).1
  · simp [RedisStore.Get, hmem] at hget

/-- C8 witness: on the store holding registered session `s1` (connection 0),
`Get` yields fresh connection 1 and a subsequent fanned-out event for `s1`
leaves connection 1's queue empty. -/
theorem Get_returns_isolated_witness :
    (∀ p ∈ c8st.connections, p.2 < c8st.nextConn)
    ∧ ((RedisStore.Get c8st "s1").1 = Except.ok (1, c8meta))
    ∧ aget (applyOps (RedisStore.Get c8st "s1").2
        [StoreOp.event "s1" ⟨"message", "d"⟩]).queues 1 = some [] := by
  refine ⟨by decide, rfl, ?_⟩
  exact (Get_returns_isolated_fresh_connection c8st "s1" 1 c8meta (by decide)
    rfl).2.2.2 [StoreOp.event "s1" ⟨"message", "d"⟩]

/-- C9 witness: concrete run against the empty store. -/
theorem handleGet_missing_session_id_witness :
    ("" ∉ StoreState.empty.ids)
    ∧ handleGet StoreState.empty "text/event-stream" "" []
      = [Action.protocolError errorCodeConnectionClosed 400
          "Bad Request: Mcp-Session-Id header is required",
         Action.protocolError errorCodeRequestTimeout 404 "Session not found"] :=
  ⟨by decide, handleGet_missing_session_id_double_error StoreState.empty [] (by decide)⟩

end WhoGate
